import Mathlib

/-!
Verification of the aioswitcher UDP datagram parser (src/aioswitcher/bridge.py)
and of the TCP session error contract exercised by tests/test_api_tcp_client.py.

Datagrams are byte lists (`Bytes`).  Python's `binascii.hexlify` is modelled by
`hexlify`, string slicing by `drop`/`take`, `int(s, base)` by `parseIntBase`
(returning `none` where Python raises `ValueError`), `bytes.decode()` by a
strict UTF-8 decoder returning `none` where Python raises `UnicodeDecodeError`,
and dictionary lookups that may raise `KeyError` by `Except`.
-/

abbrev Byte := Fin 256

abbrev Bytes := List Byte

/-- Lowercase hex digit for a value below 16, as produced by `binascii.hexlify`. -/
def hexChar (n : Nat) : Char :=
  if n < 10 then Char.ofNat (48 + n) else Char.ofNat (87 + n)

/-- `binascii.hexlify`: two lowercase hex characters per byte. -/
def hexlify : Bytes → List Char
  | [] => []
  | b :: rest => hexChar (b.val / 16) :: hexChar (b.val % 16) :: hexlify rest

/-- Python slice `hexlify(msg)[i:j]` on the hex-character sequence. -/
def hexSlice (b : Bytes) (i j : Nat) : List Char :=
  ((hexlify b).drop i).take (j - i)

/-- Value of one digit character, as accepted by Python `int(s, base)` for bases up to 16. -/
def digitVal (c : Char) : Option Nat :=
  if '0' ≤ c ∧ c ≤ '9' then some (c.toNat - 48)
  else if 'a' ≤ c ∧ c ≤ 'f' then some (c.toNat - 87)
  else if 'A' ≤ c ∧ c ≤ 'F' then some (c.toNat - 55)
  else none

/-- Python `int(s, base)` on the character sequences arising here: `none` (a raised
`ValueError`) on the empty string or on a character that is not a digit of the base. -/
def parseIntBase (base : Nat) (cs : List Char) : Option Nat :=
  if cs.isEmpty then none
  else
    cs.foldl
      (fun acc c =>
        match acc, digitVal c with
        | some a, some d => if d < base then some (a * base + d) else none
        | _, _ => none)
      (some 0)

/-- UTF-8 continuation byte test (`0x80..0xbf`). -/
def isCont (c : Byte) : Bool := 128 ≤ c.val && c.val ≤ 191

/-- Strict UTF-8 decoding with explicit fuel (fuel `≥` list length always suffices);
rejects truncated sequences, stray continuation bytes, overlong encodings,
surrogates and code points above `0x10ffff`, exactly as Python `bytes.decode()`. -/
def utf8DecodeLoop : Nat → Bytes → Option (List Char)
  | _, [] => some []
  | 0, _ :: _ => none
  | fuel + 1, b :: rest =>
    if b.val ≤ 127 then
      (utf8DecodeLoop fuel rest).map (fun cs => Char.ofNat b.val :: cs)
    else if 194 ≤ b.val && b.val ≤ 223 then
      match rest with
      | c1 :: rest2 =>
        if isCont c1 then
          (utf8DecodeLoop fuel rest2).map
            (fun cs => Char.ofNat ((b.val - 192) * 64 + (c1.val - 128)) :: cs)
        else none
      | [] => none
    else if 224 ≤ b.val && b.val ≤ 239 then
      match rest with
      | c1 :: c2 :: rest2 =>
        let lo1 := if b.val = 224 then 160 else 128
        let hi1 := if b.val = 237 then 159 else 191
        if lo1 ≤ c1.val && c1.val ≤ hi1 && isCont c2 then
          (utf8DecodeLoop fuel rest2).map
            (fun cs =>
              Char.ofNat ((b.val - 224) * 4096 + (c1.val - 128) * 64 + (c2.val - 128)) :: cs)
        else none
      | _ => none
    else if 240 ≤ b.val && b.val ≤ 244 then
      match rest with
      | c1 :: c2 :: c3 :: rest2 =>
        let lo1 := if b.val = 240 then 144 else 128
        let hi1 := if b.val = 244 then 143 else 191
        if lo1 ≤ c1.val && c1.val ≤ hi1 && isCont c2 && isCont c3 then
          (utf8DecodeLoop fuel rest2).map
            (fun cs =>
              Char.ofNat
                ((b.val - 240) * 262144 + (c1.val - 128) * 4096 + (c2.val - 128) * 64
                  + (c3.val - 128)) :: cs)
        else none
      | _ => none
    else none

/-- Python `bytes.decode()`: strict UTF-8, `none` models a raised `UnicodeDecodeError`. -/
def utf8Decode (l : Bytes) : Option (List Char) := utf8DecodeLoop l.length l

/-- Python `str.rstrip("\x00")`: drop trailing NUL characters. -/
def rstrip_nul (s : String) : String :=
  String.mk ((s.data.reverse.dropWhile (fun c => c == Char.ofNat 0)).reverse)

/-- Two-digit zero padding of a decimal number (no truncation above 99). -/
def pad2 (n : Nat) : String := if n < 10 then "0" ++ toString n else toString n

/-- Modelled from the spec: `device.tools.seconds_to_iso_time` is not under src/.
Spec section 4.1: remaining and auto-shutdown seconds format to `HH:MM:SS`,
with hours unbounded. -/
def seconds_to_iso_time (n : Nat) : String :=
  pad2 (n / 3600) ++ ":" ++ pad2 (n % 3600 / 60) ++ ":" ++ pad2 (n % 60)

/-- Modelled from the spec: `device.tools.watts_to_amps` is not under src/.
Spec section 3: `current = power / 220` rounded to one decimal.  The current is
represented here in tenths of an ampere (so 6.5 A is 65); ties round upward. -/
def watts_to_amps_tenths (w : Nat) : Nat := (10 * w + 110) / 220

/-- `socket.inet_ntoa(struct.pack("<L", x))`: the packed little-endian form puts the
least significant byte first, and `inet_ntoa` prints bytes first-to-last. -/
def inet_ntoa_packLE (x : Nat) : String :=
  toString (x % 256) ++ "." ++ toString (x / 256 % 256) ++ "." ++ toString (x / 65536 % 256)
    ++ "." ++ toString (x / 16777216 % 256)

/-- `socket.inet_ntoa(struct.pack(">L", x))`: big-endian packing prints the most
significant byte first. -/
def inet_ntoa_packBE (x : Nat) : String :=
  toString (x / 16777216 % 256) ++ "." ++ toString (x / 65536 % 256) ++ "."
    ++ toString (x / 256 % 256) ++ "." ++ toString (x % 256)

/-- Modelled from the spec: the device module (`aioswitcher/device`) is not under src/.
Spec section 3: device categories form a closed set of four. -/
inductive DeviceCategory
  | WATER_HEATER
  | POWER_PLUG
  | SHUTTER
  | THERMOSTAT
deriving DecidableEq, Repr

/-- Modelled from the spec: the device module is not under src/.
Spec section 3: boolean device state with wire encoding "01"/"00". -/
inductive DeviceState
  | ON
  | OFF
deriving DecidableEq, Repr

/-- Wire encoding of a device state (`DeviceState.ON.value` in the source). -/
def DeviceState.value : DeviceState → String
  | .ON => "01"
  | .OFF => "00"

/-- Modelled from the spec: the device module is not under src/.  Spec section 3: a
closed enumeration of device types, each carrying a 4-hex-digit model code
(`hex_rep`) and a category; scenario S1 gives model code "0100" for a water
heater; Breeze is the thermostat, Runner and Runner Mini the shutters.  The model
codes of the members other than the S1 water heater are representative values:
no claim depends on their exact digits, only on the code set being finite. -/
inductive DeviceType
  | TOUCH
  | POWER_PLUG
  | BREEZE
  | RUNNER
  | RUNNER_MINI
deriving DecidableEq, Repr

/-- The 4-hex-digit model code of a device type. -/
def DeviceType.hex_rep : DeviceType → String
  | .TOUCH => "0100"
  | .POWER_PLUG => "01a8"
  | .BREEZE => "0e01"
  | .RUNNER => "0c01"
  | .RUNNER_MINI => "0c02"

/-- The category of a device type. -/
def DeviceType.category : DeviceType → DeviceCategory
  | .TOUCH => DeviceCategory.WATER_HEATER
  | .POWER_PLUG => DeviceCategory.POWER_PLUG
  | .BREEZE => DeviceCategory.THERMOSTAT
  | .RUNNER => DeviceCategory.SHUTTER
  | .RUNNER_MINI => DeviceCategory.SHUTTER

/-- Membership order of the `DeviceType` enumeration, as iterated by
`dict(map(lambda d: (d.hex_rep, d), DeviceType))` in `get_device_type`. -/
def DeviceType.all : List DeviceType :=
  [.TOUCH, .POWER_PLUG, .BREEZE, .RUNNER, .RUNNER_MINI]

/-- Modelled from the spec: the device module is not under src/.  Spec section 4.1:
shutter direction is a 2-byte hex code with values up, down and stop. -/
inductive ShutterDirection
  | SHUTTER_UP
  | SHUTTER_DOWN
  | SHUTTER_STOP
deriving DecidableEq, Repr

/-- Wire code of a shutter direction. -/
def ShutterDirection.value : ShutterDirection → String
  | .SHUTTER_UP => "0100"
  | .SHUTTER_DOWN => "0001"
  | .SHUTTER_STOP => "0000"

/-- Membership order of the `ShutterDirection` enumeration. -/
def ShutterDirection.all : List ShutterDirection :=
  [.SHUTTER_UP, .SHUTTER_DOWN, .SHUTTER_STOP]

/-- Modelled from the spec: the device module is not under src/.  Spec section 3:
thermostat mode ranges over auto, dry, fan, cool and heat, carried on the wire as
a hex code (section 4.1); the code assignment follows the enumeration order. -/
inductive ThermostatMode
  | AUTO
  | DRY
  | FAN
  | COOL
  | HEAT
deriving DecidableEq, Repr

/-- Wire code of a thermostat mode. -/
def ThermostatMode.value : ThermostatMode → String
  | .AUTO => "01"
  | .DRY => "02"
  | .FAN => "03"
  | .COOL => "04"
  | .HEAT => "05"

/-- Membership order of the `ThermostatMode` enumeration. -/
def ThermostatMode.all : List ThermostatMode := [.AUTO, .DRY, .FAN, .COOL, .HEAT]

/-- Modelled from the spec: the device module is not under src/.  Spec section 3:
fan level ranges over auto, low, medium, high, carried as one hex nibble. -/
inductive ThermostatFanLevel
  | AUTO
  | LOW
  | MEDIUM
  | HIGH
deriving DecidableEq, Repr

/-- Wire code of a fan level (one nibble character). -/
def ThermostatFanLevel.value : ThermostatFanLevel → String
  | .AUTO => "0"
  | .LOW => "1"
  | .MEDIUM => "2"
  | .HIGH => "3"

/-- Membership order of the `ThermostatFanLevel` enumeration. -/
def ThermostatFanLevel.all : List ThermostatFanLevel := [.AUTO, .LOW, .MEDIUM, .HIGH]

/-- Modelled from the spec: the device module is not under src/.  Spec section 4.1:
breeze swing nibble, "0" means off, anything else on. -/
inductive ThermostatSwing
  | ON
  | OFF
deriving DecidableEq, Repr

/-- Wire code of the swing flag. -/
def ThermostatSwing.value : ThermostatSwing → String
  | .ON => "1"
  | .OFF => "0"

/-- `DatagramParser.is_switcher_originator`: magic "fef0" in the first two bytes and
total length 165, 168 or 159. -/
def is_switcher_originator (b : Bytes) : Bool :=
  (String.mk ((hexlify b).take 4) == "fef0")
    && (b.length == 165 || b.length == 168 || b.length == 159)

/-- `DatagramParser.get_ip_type1`: hex chars 152..160 (bytes 76..80), digit pairs
reversed, then `inet_ntoa(pack("<L", ...))`.  `none` from `int` on an empty slice
models a raised `ValueError`; `pack` itself cannot fail since 8 hex chars stay
below `2 ^ 32`. -/
def get_ip_type1 (b : Bytes) : Except String String :=
  let hex_ip := hexSlice b 152 160
  match parseIntBase 16
      (((hex_ip.drop 6).take 2) ++ ((hex_ip.drop 4).take 2) ++ ((hex_ip.drop 2).take 2)
        ++ hex_ip.take 2) with
  | some ip_addr => Except.ok (inet_ntoa_packLE ip_addr)
  | none => Except.error "ValueError"

/-- `DatagramParser.get_ip_type2`: hex chars 154..162 (bytes 77..81), digit pairs in
order, then `inet_ntoa(pack(">L", ...))`. -/
def get_ip_type2 (b : Bytes) : Except String String :=
  let hex_ip := hexSlice b 154 162
  match parseIntBase 16
      ((hex_ip.take 2) ++ ((hex_ip.drop 2).take 2) ++ ((hex_ip.drop 4).take 2)
        ++ ((hex_ip.drop 6).take 2)) with
  | some ip_addr => Except.ok (inet_ntoa_packBE ip_addr)
  | none => Except.error "ValueError"

/-- `DatagramParser.get_mac`: hex chars 160..172 (bytes 80..86) uppercased and
colon-joined in pairs. -/
def get_mac (b : Bytes) : String :=
  let hex_mac := (hexSlice b 160 172).map Char.toUpper
  String.mk (hex_mac.take 2) ++ ":" ++ String.mk ((hex_mac.drop 2).take 2) ++ ":"
    ++ String.mk ((hex_mac.drop 4).take 2) ++ ":" ++ String.mk ((hex_mac.drop 6).take 2)
    ++ ":" ++ String.mk ((hex_mac.drop 8).take 2) ++ ":" ++ String.mk ((hex_mac.drop 10).take 2)

/-- `DatagramParser.get_name`: bytes 42..74 decoded as UTF-8 and right-stripped of
NULs; a decode failure is a raised `UnicodeDecodeError`. -/
def get_name (b : Bytes) : Except String String :=
  match utf8Decode ((b.drop 42).take 32) with
  | some cs => Except.ok (rstrip_nul (String.mk cs))
  | none => Except.error "UnicodeDecodeError"

/-- `DatagramParser.get_device_id`: hex chars 36..42 (bytes 18..21). -/
def get_device_id (b : Bytes) : String := String.mk (hexSlice b 36 42)

/-- `DatagramParser.get_device_state`: hex chars 266..268 (byte 133) compared with
`DeviceState.ON.value`. -/
def get_device_state (b : Bytes) : DeviceState :=
  if String.mk (hexSlice b 266 268) = DeviceState.ON.value then DeviceState.ON
  else DeviceState.OFF

/-- `DatagramParser.get_auto_shutdown`: hex chars 310..318 (bytes 155..159) digit
pairs reversed (little-endian seconds), formatted `HH:MM:SS`. -/
def get_auto_shutdown (b : Bytes) : Except String String :=
  let h := hexSlice b 310 318
  match parseIntBase 16
      (((h.drop 6).take 2) ++ ((h.drop 4).take 2) ++ ((h.drop 2).take 2) ++ h.take 2) with
  | some n => Except.ok (seconds_to_iso_time n)
  | none => Except.error "ValueError"

/-- `DatagramParser.get_power_consumption`: hex chars 270..278 are sliced but only
chars [2:4] and [0:2] are used: a little-endian 16-bit integer at byte 135. -/
def get_power_consumption (b : Bytes) : Except String Nat :=
  let h := hexSlice b 270 278
  match parseIntBase 16 (((h.drop 2).take 2) ++ h.take 2) with
  | some n => Except.ok n
  | none => Except.error "ValueError"

/-- `DatagramParser.get_remaining`: hex chars 294..302 (bytes 147..151) digit pairs
reversed (little-endian seconds), formatted `HH:MM:SS`. -/
def get_remaining (b : Bytes) : Except String String :=
  let h := hexSlice b 294 302
  match parseIntBase 16
      (((h.drop 6).take 2) ++ ((h.drop 4).take 2) ++ ((h.drop 2).take 2) ++ h.take 2) with
  | some n => Except.ok (seconds_to_iso_time n)
  | none => Except.error "ValueError"

/-- `DatagramParser.get_device_type`: model code `hexlify(message[74:76])` looked up
in `dict(map(lambda d: (d.hex_rep, d), DeviceType))`; a missing key is a raised
`KeyError`. -/
def get_device_type (b : Bytes) : Except String DeviceType :=
  let hex_model := String.mk (hexlify ((b.drop 74).take 2))
  match DeviceType.all.find? (fun d => d.hex_rep == hex_model) with
  | some d => Except.ok d
  | none => Except.error "KeyError"

/-- `DatagramParser.get_shutter_position`: on `hex_pos = hexlify(message[135:137])`,
`int(hex_pos[2:4]) + int(hex_pos[0:2], 16)` — the second byte read as DECIMAL
digits plus the first byte read as hex.  `int(hex_pos[2:4])` raises `ValueError`
whenever the second byte has a hex digit above 9. -/
def get_shutter_position (b : Bytes) : Except String Nat :=
  let hex_pos := hexlify ((b.drop 135).take 2)
  match parseIntBase 10 ((hex_pos.drop 2).take 2) with
  | none => Except.error "ValueError"
  | some d =>
    match parseIntBase 16 (hex_pos.take 2) with
    | none => Except.error "ValueError"
    | some h => Except.ok (d + h)

/-- `DatagramParser.get_shutter_direction`: `hexlify(message[137:139])` looked up in
the `ShutterDirection` value dictionary; a missing key is a raised `KeyError`. -/
def get_shutter_direction (b : Bytes) : Except String ShutterDirection :=
  let hex_direction := String.mk (hexlify ((b.drop 137).take 2))
  match ShutterDirection.all.find? (fun d => d.value == hex_direction) with
  | some d => Except.ok d
  | none => Except.error "KeyError"

/-- `DatagramParser.get_thermostat_temp`: little-endian 16-bit at bytes 135..137,
kept in tenths of a degree (the source divides by 10 into a float). -/
def get_thermostat_temp (b : Bytes) : Except String Nat :=
  let hex_temp := hexlify ((b.drop 135).take 2)
  match parseIntBase 16 (((hex_temp.drop 2).take 2) ++ hex_temp.take 2) with
  | some n => Except.ok n
  | none => Except.error "ValueError"

/-- `DatagramParser.get_thermostat_state`: `hexlify(message[137:138])` compared with
`DeviceState.ON.value`. -/
def get_thermostat_state (b : Bytes) : DeviceState :=
  if String.mk (hexlify ((b.drop 137).take 1)) = DeviceState.ON.value then DeviceState.ON
  else DeviceState.OFF

/-- `DatagramParser.get_thermostat_mode`: `hexlify(message[138:139])` looked up in
the `ThermostatMode` value dictionary, defaulting to COOL when absent. -/
def get_thermostat_mode (b : Bytes) : ThermostatMode :=
  let hex_mode := String.mk (hexlify ((b.drop 138).take 1))
  match ThermostatMode.all.find? (fun s => s.value == hex_mode) with
  | some m => m
  | none => ThermostatMode.COOL

/-- `DatagramParser.get_thermostat_target_temp`: `int(hexlify(message[139:140]), 16)`. -/
def get_thermostat_target_temp (b : Bytes) : Except String Nat :=
  match parseIntBase 16 (hexlify ((b.drop 139).take 1)) with
  | some n => Except.ok n
  | none => Except.error "ValueError"

/-- `DatagramParser.get_thermostat_fan_level`: first hex character of byte 140 looked
up in the `ThermostatFanLevel` value dictionary; a missing key is a raised
`KeyError`. -/
def get_thermostat_fan_level (b : Bytes) : Except String ThermostatFanLevel :=
  let hex_level := hexlify ((b.drop 140).take 1)
  match ThermostatFanLevel.all.find? (fun s => s.value == String.mk (hex_level.take 1)) with
  | some f => Except.ok f
  | none => Except.error "KeyError"

/-- `DatagramParser.get_thermostat_swing`: second hex character of byte 140; OFF when
it equals `ThermostatSwing.OFF.value`, else ON. -/
def get_thermostat_swing (b : Bytes) : ThermostatSwing :=
  let hex_swing := hexlify ((b.drop 140).take 1)
  if String.mk ((hex_swing.drop 1).take 1) = ThermostatSwing.OFF.value then ThermostatSwing.OFF
  else ThermostatSwing.ON

/-- `DatagramParser.get_thermostat_remote_id`: bytes 143..151 decoded as UTF-8. -/
def get_thermostat_remote_id (b : Bytes) : Except String String :=
  match utf8Decode ((b.drop 143).take 8) with
  | some cs => Except.ok (String.mk cs)
  | none => Except.error "UnicodeDecodeError"

/-- The typed device records handed to the sink (`SwitcherWaterHeater`,
`SwitcherPowerPlug`, `SwitcherShutter`, `SwitcherThermostat`), with constructor
arguments in the order the source passes them.  Electric current and
thermostat temperature are kept in tenths (see `watts_to_amps_tenths`). -/
inductive SwitcherDevice
  | waterHeater (deviceType : DeviceType) (deviceState : DeviceState) (deviceId : String)
      (ipAddress : String) (macAddress : String) (name : String) (powerConsumption : Nat)
      (electricCurrentTenths : Nat) (remainingTime : String) (autoShutdownTime : String)
  | powerPlug (deviceType : DeviceType) (deviceState : DeviceState) (deviceId : String)
      (ipAddress : String) (macAddress : String) (name : String) (powerConsumption : Nat)
      (electricCurrentTenths : Nat)
  | shutter (deviceType : DeviceType) (deviceState : DeviceState) (deviceId : String)
      (ipAddress : String) (macAddress : String) (name : String) (position : Nat)
      (direction : ShutterDirection)
  | thermostat (deviceType : DeviceType) (deviceState : DeviceState) (deviceId : String)
      (ipAddress : String) (macAddress : String) (name : String) (mode : ThermostatMode)
      (tempTenths : Nat) (targetTemp : Nat) (fanLevel : ThermostatFanLevel)
      (swing : ThermostatSwing) (remoteId : String)
deriving DecidableEq, Repr

/-- The device state stored in a record. -/
def SwitcherDevice.stateOf : SwitcherDevice → DeviceState
  | .waterHeater _ st _ _ _ _ _ _ _ _ => st
  | .powerPlug _ st _ _ _ _ _ _ => st
  | .shutter _ st _ _ _ _ _ _ => st
  | .thermostat _ st _ _ _ _ _ _ _ _ _ _ => st

/-- The power consumption stored in a record (water heaters and power plugs only). -/
def SwitcherDevice.powerOf : SwitcherDevice → Option Nat
  | .waterHeater _ _ _ _ _ _ pw _ _ _ => some pw
  | .powerPlug _ _ _ _ _ _ pw _ => some pw
  | _ => none

/-- The electric current (tenths of ampere) stored in a record. -/
def SwitcherDevice.currentOf : SwitcherDevice → Option Nat
  | .waterHeater _ _ _ _ _ _ _ cur _ _ => some cur
  | .powerPlug _ _ _ _ _ _ _ cur => some cur
  | _ => none

/-- The remaining-runtime string stored in a record (water heaters only). -/
def SwitcherDevice.remainingOf : SwitcherDevice → Option String
  | .waterHeater _ _ _ _ _ _ _ _ rem _ => some rem
  | _ => none

/-- Whether a record is a shutter record. -/
def SwitcherDevice.isShutterRec : SwitcherDevice → Bool
  | .shutter _ _ _ _ _ _ _ _ => true
  | _ => false

/-- Outcome of `_parse_device_from_datagram`: the gate rejected the datagram (debug
log only), a device was delivered to the sink, the unknown-device `warn` branch
fired, or an exception escaped the callback. -/
inductive ParseOutcome
  | notSwitcher
  | device (d : SwitcherDevice)
  | unknownWarn
  | error (e : String)
deriving DecidableEq, Repr

/-- Embed a fallible build into an outcome. -/
def liftE : Except String SwitcherDevice → ParseOutcome
  | Except.ok d => ParseOutcome.device d
  | Except.error e => ParseOutcome.error e

/-- Whether an outcome delivered a device to the sink. -/
def producesDevice : ParseOutcome → Bool
  | ParseOutcome.device _ => true
  | _ => false

/-- The `SwitcherWaterHeater` construction, evaluating the fallible getters in the
Python argument order; the remaining time is `"00:00:00"` unless the state is ON. -/
def buildWaterHeater (b : Bytes) (dt : DeviceType) (st : DeviceState) (pc cur : Nat) :
    Except String SwitcherDevice :=
  match get_ip_type1 b with
  | Except.error e => Except.error e
  | Except.ok ip =>
    match get_name b with
    | Except.error e => Except.error e
    | Except.ok nm =>
      match (if st = DeviceState.ON then get_remaining b else Except.ok "00:00:00") with
      | Except.error e => Except.error e
      | Except.ok rem =>
        match get_auto_shutdown b with
        | Except.error e => Except.error e
        | Except.ok asd =>
          Except.ok
            (SwitcherDevice.waterHeater dt st (get_device_id b) ip (get_mac b) nm pc cur rem asd)

/-- The `SwitcherPowerPlug` construction. -/
def buildPowerPlug (b : Bytes) (dt : DeviceType) (st : DeviceState) (pc cur : Nat) :
    Except String SwitcherDevice :=
  match get_ip_type1 b with
  | Except.error e => Except.error e
  | Except.ok ip =>
    match get_name b with
    | Except.error e => Except.error e
    | Except.ok nm =>
      Except.ok (SwitcherDevice.powerPlug dt st (get_device_id b) ip (get_mac b) nm pc cur)

/-- The `SwitcherShutter` construction: the state argument is the literal
`DeviceState.ON` in the source, whatever the datagram carries. -/
def buildShutter (b : Bytes) (dt : DeviceType) : Except String SwitcherDevice :=
  match get_ip_type2 b with
  | Except.error e => Except.error e
  | Except.ok ip =>
    match get_name b with
    | Except.error e => Except.error e
    | Except.ok nm =>
      match get_shutter_position b with
      | Except.error e => Except.error e
      | Except.ok pos =>
        match get_shutter_direction b with
        | Except.error e => Except.error e
        | Except.ok dir =>
          Except.ok
            (SwitcherDevice.shutter dt DeviceState.ON (get_device_id b) ip (get_mac b) nm pos dir)

/-- The `SwitcherThermostat` construction. -/
def buildThermostat (b : Bytes) (dt : DeviceType) (st : DeviceState) :
    Except String SwitcherDevice :=
  match get_ip_type2 b with
  | Except.error e => Except.error e
  | Except.ok ip =>
    match get_name b with
    | Except.error e => Except.error e
    | Except.ok nm =>
      match get_thermostat_temp b with
      | Except.error e => Except.error e
      | Except.ok temp =>
        match get_thermostat_target_temp b with
        | Except.error e => Except.error e
        | Except.ok target =>
          match get_thermostat_fan_level b with
          | Except.error e => Except.error e
          | Except.ok fan =>
            match get_thermostat_remote_id b with
            | Except.error e => Except.error e
            | Except.ok rid =>
              Except.ok
                (SwitcherDevice.thermostat dt st (get_device_id b) ip (get_mac b) nm
                  (get_thermostat_mode b) temp target fan (get_thermostat_swing b) rid)

/-- The `if/elif/elif/elif/else` category dispatch of `_parse_device_from_datagram`;
the final `else` is the `warn("discovered an unknown switcher device")` branch. -/
def parseDispatch (b : Bytes) (dt : DeviceType) (st : DeviceState) (pc cur : Nat) :
    ParseOutcome :=
  if dt.category = DeviceCategory.WATER_HEATER then liftE (buildWaterHeater b dt st pc cur)
  else if dt.category = DeviceCategory.POWER_PLUG then liftE (buildPowerPlug b dt st pc cur)
  else if dt.category = DeviceCategory.SHUTTER then liftE (buildShutter b dt)
  else if dt.category = DeviceCategory.THERMOSTAT then liftE (buildThermostat b dt st)
  else ParseOutcome.unknownWarn

/-- `_parse_device_from_datagram`: gate, model-code lookup, state, power and current
(zeroed when the state is not ON), then category dispatch. -/
def parse_device_from_datagram (b : Bytes) : ParseOutcome :=
  if is_switcher_originator b then
    match get_device_type b with
    | Except.error e => ParseOutcome.error e
    | Except.ok dt =>
      let st := if dt = DeviceType.BREEZE then get_thermostat_state b else get_device_state b
      match (if st = DeviceState.ON then get_power_consumption b else Except.ok 0) with
      | Except.error e => ParseOutcome.error e
      | Except.ok pc =>
        parseDispatch b dt st pc (if st = DeviceState.ON then watts_to_amps_tenths pc else 0)
  else ParseOutcome.notSwitcher

deriving instance DecidableEq for Except

/-- Outcome of one TCP operation: how many writes were performed on the connection
and the result (an `error` is a raised `RuntimeError` with that message). -/
structure TcpOutcome where
  writes : Nat
  result : Except String Unit
deriving DecidableEq, Repr

/-- Modelled from the spec: the TCP protocol engine (`aioswitcher/api`) is not under
src/; only its tests are.  Spec sections 4.3 and 4.5 and scenario S3: every
operation sends a login packet (first write) and reads one response; an empty
read fails with "login request was not successful"; otherwise the operation
request is sent (second write) and one response read; an empty read there fails
with "<operation> request was not successful".  `reads` lists the successive
responses the peer returns. -/
def run_operation (op : String) (reads : List Bytes) : TcpOutcome :=
  let loginRead := reads.getD 0 []
  if loginRead.isEmpty then
    TcpOutcome.mk 1 (Except.error "login request was not successful")
  else
    let opRead := reads.getD 1 []
    if opRead.isEmpty then
      TcpOutcome.mk 2 (Except.error (op ++ " request was not successful"))
    else TcpOutcome.mk 2 (Except.ok ())

/-- A 165-byte type-1 datagram, parameterised by the model code (bytes 74..76) and
the device-state byte (byte 133); device id "3933ac", name "Boiler", IP bytes
04 03 02 01, MAC aa:bb:cc:dd:ee:ff, power bytes a0 05, remaining bytes
0e 10 00 00, auto-shutdown bytes zero — the scenario S1 layout. -/
def mkType1Datagram (model : Bytes) (stByte : Byte) : Bytes :=
  [0xfe, 0xf0] ++ List.replicate 16 0
    ++ [0x39, 0x33, 0xac] ++ List.replicate 21 0
    ++ [0x42, 0x6f, 0x69, 0x6c, 0x65, 0x72] ++ List.replicate 26 0
    ++ model
    ++ [0x04, 0x03, 0x02, 0x01]
    ++ [0xaa, 0xbb, 0xcc, 0xdd, 0xee, 0xff]
    ++ List.replicate 47 0
    ++ [stByte] ++ [0x00]
    ++ [0xa0, 0x05]
    ++ List.replicate 10 0
    ++ [0x0e, 0x10, 0x00, 0x00]
    ++ List.replicate 4 0
    ++ List.replicate 4 0
    ++ List.replicate 6 0

/-- The scenario S1 water-heater datagram (model "0100", state byte 01). -/
def s1Datagram : Bytes := mkType1Datagram [0x01, 0x00] 0x01

/-- The S1 layout with the device-state byte 00 instead of 01. -/
def whOffDatagram : Bytes := mkType1Datagram [0x01, 0x00] 0x00

/-- The S1 layout with a model code ("abcd") outside the device-type enumeration. -/
def unknownModelDatagram : Bytes := mkType1Datagram [0xab, 0xcd] 0x01

/-- The S1 layout with another unknown model code ("dead"). -/
def unknownModelDatagram2 : Bytes := mkType1Datagram [0xde, 0xad] 0x01

/-- The water-heater record that `s1Datagram` parses to. -/
def s1Record : SwitcherDevice :=
  SwitcherDevice.waterHeater DeviceType.TOUCH DeviceState.ON "3933ac" "4.3.2.1"
    "AA:BB:CC:DD:EE:FF" "Boiler" 1440 65 "01:08:30" "00:00:00"

/-- The water-heater record that `whOffDatagram` parses to. -/
def whOffRecord : SwitcherDevice :=
  SwitcherDevice.waterHeater DeviceType.TOUCH DeviceState.OFF "3933ac" "4.3.2.1"
    "AA:BB:CC:DD:EE:FF" "Boiler" 0 0 "00:00:00" "00:00:00"

/-- A 159-byte Runner datagram: model "0c01" at bytes 74..76, IP bytes 10 00 00 05
at 77..81, MAC bytes 05 00 00 00 00 00 at 80..86, position bytes 00 00 at
135..137, direction bytes 00 00 (stop) at 137..139, everything else zero. -/
def runnerDatagram : Bytes :=
  [0xfe, 0xf0] ++ List.replicate 72 0
    ++ [0x0c, 0x01]
    ++ [0x00]
    ++ [0x0a, 0x00, 0x00, 0x05]
    ++ List.replicate 78 0

/-- The shutter record that `runnerDatagram` parses to. -/
def runnerRecord : SwitcherDevice :=
  SwitcherDevice.shutter DeviceType.RUNNER DeviceState.ON "000000" "10.0.0.5"
    "05:00:00:00:00:00" "" 0 ShutterDirection.SHUTTER_STOP

/-- A two-byte datagram that fails the magic-and-length gate. -/
def deadDatagram : Bytes := [0xde, 0xad]

/-- A message whose bytes 135 and 136 are 10 and 09 (hex): the decimal and the hex
reading land on different bytes, separating the two shutter-position formulas. -/
def positionMessage : Bytes := List.replicate 135 0 ++ [0x10, 0x09]

/-- A message whose bytes 135 and 136 are 07 and 25 (hex). -/
def positionMessage2 : Bytes := List.replicate 135 0 ++ [0x07, 0x25]

/-- The shutter position as claim C4 words it: the first byte (offset 135) read as
decimal digits plus the second byte (offset 136) read as hex — for comparison
with `get_shutter_position`. -/
def claim_shutter_position (b : Bytes) : Option Nat :=
  let hex_pos := hexlify ((b.drop 135).take 2)
  match parseIntBase 10 (hex_pos.take 2), parseIntBase 16 ((hex_pos.drop 2).take 2) with
  | some d, some h => some (d + h)
  | _, _ => none

set_option maxRecDepth 100000

theorem dropTakeOne {α : Type} (l : List α) (n : Nat) :
    (l.drop n).take 1 = (l[n]?).toList := by
  induction l generalizing n with
  | nil => simp
  | cons a t ih =>
    cases n with
    | zero => simp
    | succ m => simpa using ih m

theorem dropTakeTwo {α : Type} (l : List α) (n : Nat) (c d : α)
    (h1 : l[n]? = some c) (h2 : l[n + 1]? = some d) : (l.drop n).take 2 = [c, d] := by
  induction l generalizing n with
  | nil => simp at h1
  | cons a t ih =>
    cases n with
    | zero =>
      simp at h1
      subst h1
      simp at h2
      cases t with
      | nil => simp at h2
      | cons b t2 =>
        simp at h2
        simp [h2]
    | succ m =>
      simp at h1 h2
      simpa using ih m h1 h2

theorem hexlify_drop (n : Nat) (l : Bytes) :
    (hexlify l).drop (2 * n) = hexlify (l.drop n) := by
  induction n generalizing l with
  | zero => simp
  | succ m ih =>
    cases l with
    | nil => simp [hexlify]
    | cons a t =>
      have h2 : 2 * (m + 1) = 2 * m + 1 + 1 := by omega
      simp [hexlify, h2]
      exact ih t

theorem hexlify_take_two (l : Bytes) : (hexlify l).take 2 = hexlify (l.take 1) := by
  cases l with
  | nil => simp [hexlify]
  | cons a t => simp [hexlify]

theorem liftE_eq_device {e : Except String SwitcherDevice} {d : SwitcherDevice} :
    liftE e = ParseOutcome.device d ↔ e = Except.ok d := by
  cases e <;> simp [liftE]

theorem liftE_ne_warn (e : Except String SwitcherDevice) :
    liftE e ≠ ParseOutcome.unknownWarn := by
  cases e <;> simp [liftE]

theorem parseDispatch_ne_warn (b : Bytes) (dt : DeviceType) (st : DeviceState)
    (pc cur : Nat) : parseDispatch b dt st pc cur ≠ ParseOutcome.unknownWarn := by
  cases dt <;> simp [parseDispatch, DeviceType.category] <;> exact liftE_ne_warn _

theorem parse_device_cases {b : Bytes} {d : SwitcherDevice}
    (h : parse_device_from_datagram b = ParseOutcome.device d) :
    is_switcher_originator b = true ∧
      ∃ dt pc,
        get_device_type b = Except.ok dt ∧
          ((if (if dt = DeviceType.BREEZE then get_thermostat_state b else get_device_state b) =
                DeviceState.ON then
              get_power_consumption b
            else Except.ok 0) = Except.ok pc ∧
            parseDispatch b dt
                (if dt = DeviceType.BREEZE then get_thermostat_state b else get_device_state b) pc
                (if (if dt = DeviceType.BREEZE then get_thermostat_state b
                      else get_device_state b) = DeviceState.ON then
                  watts_to_amps_tenths pc
                else 0) = ParseOutcome.device d) := by
  unfold parse_device_from_datagram at h
  split at h
  case isTrue hg =>
    refine ⟨hg, ?_⟩
    split at h
    case h_1 e heq => simp at h
    case h_2 dt heq =>
      dsimp only at h
      split at h
      case h_1 e heq2 => simp at h
      case h_2 pc heq2 => exact ⟨dt, pc, heq, heq2, h⟩
  case isFalse hg => simp at h

theorem buildWaterHeater_ok {b : Bytes} {dt : DeviceType} {st : DeviceState} {pc cur : Nat}
    {d : SwitcherDevice} (h : buildWaterHeater b dt st pc cur = Except.ok d) :
    ∃ ip nm rem asd,
      (if st = DeviceState.ON then get_remaining b else Except.ok "00:00:00") =
          Except.ok rem ∧
        d = SwitcherDevice.waterHeater dt st (get_device_id b) ip (get_mac b) nm pc cur rem asd := by
  unfold buildWaterHeater at h
  split at h
  case h_1 => simp at h
  case h_2 ip hip =>
    split at h
    case h_1 => simp at h
    case h_2 nm hnm =>
      split at h
      case h_1 => simp at h
      case h_2 rem hrem =>
        split at h
        case h_1 => simp at h
        case h_2 asd hasd =>
          simp at h
          exact ⟨ip, nm, rem, asd, hrem, h.symm⟩

theorem buildPowerPlug_ok {b : Bytes} {dt : DeviceType} {st : DeviceState} {pc cur : Nat}
    {d : SwitcherDevice} (h : buildPowerPlug b dt st pc cur = Except.ok d) :
    ∃ ip nm, d = SwitcherDevice.powerPlug dt st (get_device_id b) ip (get_mac b) nm pc cur := by
  unfold buildPowerPlug at h
  split at h
  case h_1 => simp at h
  case h_2 ip hip =>
    split at h
    case h_1 => simp at h
    case h_2 nm hnm =>
      simp at h
      exact ⟨ip, nm, h.symm⟩

theorem buildShutter_ok {b : Bytes} {dt : DeviceType} {d : SwitcherDevice}
    (h : buildShutter b dt = Except.ok d) :
    ∃ ip nm pos dir,
      d = SwitcherDevice.shutter dt DeviceState.ON (get_device_id b) ip (get_mac b) nm pos dir := by
  unfold buildShutter at h
  split at h
  case h_1 => simp at h
  case h_2 ip hip =>
    split at h
    case h_1 => simp at h
    case h_2 nm hnm =>
      split at h
      case h_1 => simp at h
      case h_2 pos hpos =>
        split at h
        case h_1 => simp at h
        case h_2 dir hdir =>
          simp at h
          exact ⟨ip, nm, pos, dir, h.symm⟩

theorem buildThermostat_ok {b : Bytes} {dt : DeviceType} {st : DeviceState}
    {d : SwitcherDevice} (h : buildThermostat b dt st = Except.ok d) :
    ∃ ip nm temp target fan rid,
      d = SwitcherDevice.thermostat dt st (get_device_id b) ip (get_mac b) nm
          (get_thermostat_mode b) temp target fan (get_thermostat_swing b) rid := by
  unfold buildThermostat at h
  split at h
  case h_1 => simp at h
  case h_2 ip hip =>
    split at h
    case h_1 => simp at h
    case h_2 nm hnm =>
      split at h
      case h_1 => simp at h
      case h_2 temp htemp =>
        split at h
        case h_1 => simp at h
        case h_2 target htarget =>
          split at h
          case h_1 => simp at h
          case h_2 fan hfan =>
            split at h
            case h_1 => simp at h
            case h_2 rid hrid =>
              simp at h
              exact ⟨ip, nm, temp, target, fan, rid, h.symm⟩

/-- Hex rendering of one byte parsed back as a base-16 integer gives the byte value. -/
theorem parse_hex_byte (c : Byte) :
    parseIntBase 16 (hexlify [c]) = some c.val := by
  revert c
  decide

/-- Hex rendering of one byte parsed as DECIMAL digits: defined exactly when both
nibbles are below 10, giving ten times the high nibble plus the low nibble. -/
theorem parse_dec_of_hex_byte (c : Byte) (hhi : c.val / 16 < 10) (hlo : c.val % 16 < 10) :
    parseIntBase 10 (hexlify [c]) = some (c.val / 16 * 10 + c.val % 16) := by
  revert c
  decide

/-- Comparing the hex rendering of one byte with the ON wire value "01" succeeds for
the byte 1 and for no other byte. -/
theorem state_hex_byte (c : Byte) :
    ((if String.mk (hexlify [c]) = DeviceState.ON.value then DeviceState.ON
      else DeviceState.OFF) = DeviceState.ON) ↔ c = 1 := by
  revert c
  decide

/-- The thermostat-mode dictionary lookup on the hex rendering of one byte. -/
theorem mode_hex_byte (c : Byte) :
    (match ThermostatMode.all.find? (fun s => s.value == String.mk (hexlify [c])) with
      | some m => m
      | none => ThermostatMode.COOL) =
      (if c = 1 then ThermostatMode.AUTO
        else if c = 2 then ThermostatMode.DRY
        else if c = 3 then ThermostatMode.FAN
        else if c = 4 then ThermostatMode.COOL
        else if c = 5 then ThermostatMode.HEAT
        else ThermostatMode.COOL) := by
  revert c
  decide

/-- C1 (amended): the magic-and-length gate is necessary — every payload failing it
is dropped as not-mine, so no device is delivered to the sink; consequently a
payload producing a device passes the gate.  The converse direction of the
claimed "if and only if" is refuted by `C1_gate_not_sufficient_cex`. -/
theorem C1_gate_necessary (b : Bytes) (h : is_switcher_originator b = false) :
    parse_device_from_datagram b = ParseOutcome.notSwitcher := by
  unfold parse_device_from_datagram
  simp [h]

/-- C1 witness: a concrete gate-failing datagram is dropped as not-mine. -/
theorem C1_gate_necessary_witness :
    is_switcher_originator deadDatagram = false ∧
      parse_device_from_datagram deadDatagram = ParseOutcome.notSwitcher :=
  ⟨by decide, C1_gate_necessary deadDatagram (by decide)⟩

/-- C1 counterexample: a 165-byte datagram with magic FE F0 passes the gate, yet no
device is produced (its model code is unknown), refuting the claimed
"if and only if". -/
theorem C1_gate_not_sufficient_cex :
    is_switcher_originator unknownModelDatagram = true ∧
      producesDevice (parse_device_from_datagram unknownModelDatagram) = false := by decide

/-- C2 (amended): the parser is a pure function of the datagram, hence
deterministic, and every run ends in exactly one of: the not-mine signal, a
device record, or a raised exception; the unknown-model warning outcome is
unreachable.  Totality in the claimed sense (never raising) is refuted by
`C2_raises_cex`. -/
theorem C2_deterministic_outcomes (b : Bytes) :
    parse_device_from_datagram b = ParseOutcome.notSwitcher ∨
      (∃ d, parse_device_from_datagram b = ParseOutcome.device d) ∨
      ∃ e, parse_device_from_datagram b = ParseOutcome.error e := by
  have hw : parse_device_from_datagram b ≠ ParseOutcome.unknownWarn := by
    unfold parse_device_from_datagram
    split
    · split
      · simp
      · dsimp only
        split
        · simp
        · exact parseDispatch_ne_warn _ _ _ _ _
    · simp
  rcases ho : parse_device_from_datagram b with _ | d | _ | e
  · exact Or.inl rfl
  · exact Or.inr (Or.inl ⟨d, rfl⟩)
  · exact absurd ho hw
  · exact Or.inr (Or.inr ⟨e, rfl⟩)

/-- C2 counterexample: a gate-passing datagram with an unknown model code makes the
parser raise (KeyError escapes the callback) instead of returning a device, the
not-mine signal or a warning. -/
theorem C2_raises_cex :
    parse_device_from_datagram unknownModelDatagram = ParseOutcome.error "KeyError" := by decide

/-- C3: on a gate-passing datagram whose model code resolves to no device type, the
sink receives nothing, but contrary to the claim no warning is emitted: the
dictionary lookup in `get_device_type` raises KeyError before the warn branch of
`_parse_device_from_datagram` can run. -/
theorem C3_unknown_model_raises :
    parse_device_from_datagram unknownModelDatagram2 = ParseOutcome.error "KeyError" ∧
      producesDevice (parse_device_from_datagram unknownModelDatagram2) = false := by decide

/-- C4 counterexample: with byte 135 = 0x10 and byte 136 = 0x09 the code yields
9 + 16 = 25 while the claimed decoding (first byte decimal, second byte hex)
yields 10 + 9 = 19. -/
theorem C4_swapped_bytes_cex :
    get_shutter_position positionMessage = Except.ok 25 ∧
      claim_shutter_position positionMessage = some 19 ∧ (25 : Nat) ≠ 19 := by decide

/-- C4 (amended): the shutter position is the DECIMAL reading of the SECOND byte
(offset 136) plus the HEX reading of the FIRST byte (offset 135) — the roles are
the reverse of the claimed ones. -/
theorem C4_shutter_position (msg : Bytes) (c d : Byte) (h1 : msg[135]? = some c)
    (h2 : msg[136]? = some d) (hhi : d.val / 16 < 10) (hlo : d.val % 16 < 10) :
    get_shutter_position msg = Except.ok (d.val / 16 * 10 + d.val % 16 + c.val) := by
  unfold get_shutter_position
  have hslice : (msg.drop 135).take 2 = [c, d] := dropTakeTwo msg 135 c d h1 h2
  rw [hslice]
  have hd := parse_dec_of_hex_byte d hhi hlo
  have hc := parse_hex_byte c
  simp only [hexlify] at hd hc ⊢
  simp [hd, hc]

/-- C4 witness: bytes 07 and 25 at offsets 135 and 136 give 25 + 7 = 32. -/
theorem C4_shutter_position_witness :
    (positionMessage2[135]? = some (0x07 : Byte) ∧ positionMessage2[136]? = some (0x25 : Byte)) ∧
      get_shutter_position positionMessage2 = Except.ok 32 :=
  ⟨⟨by decide, by decide⟩,
    C4_shutter_position positionMessage2 0x07 0x25 (by decide) (by decide) (by decide)
      (by decide)⟩

/-- C5 counterexample: the scenario S1 datagram parses to a water heater whose IP is
"4.3.2.1" (not the claimed "1.2.3.4") and whose remaining time is "01:08:30"
(not the claimed "01:08:46"): the remaining bytes 0e 10 00 00 are 4110 seconds. -/
theorem C5_s1_scenario_cex :
    parse_device_from_datagram s1Datagram = ParseOutcome.device s1Record ∧
      ("4.3.2.1" : String) ≠ "1.2.3.4" ∧ ("01:08:30" : String) ≠ "01:08:46" := by decide

/-- C5 (amended): the scenario S1 datagram yields a water heater with id "3933ac",
state ON, power 1440 W, current 6.5 A (65 tenths), IP "4.3.2.1" and remaining
"01:08:30". -/
theorem C5_s1_scenario :
    parse_device_from_datagram s1Datagram =
      ParseOutcome.device
        (SwitcherDevice.waterHeater DeviceType.TOUCH DeviceState.ON "3933ac" "4.3.2.1"
          "AA:BB:CC:DD:EE:FF" "Boiler" 1440 65 "01:08:30" "00:00:00") := by decide

/-- C6: every parsed device record whose state is OFF carries power 0 and electric
current 0, and, when it is a water heater, remaining time "00:00:00" — whatever
the power and remaining bytes of the datagram say. -/
theorem C6_off_zero (b : Bytes) (d : SwitcherDevice)
    (h : parse_device_from_datagram b = ParseOutcome.device d)
    (hoff : d.stateOf = DeviceState.OFF) :
    d.powerOf.getD 0 = 0 ∧ d.currentOf.getD 0 = 0 ∧
      d.remainingOf.getD "00:00:00" = "00:00:00" := by
  obtain ⟨hg, dt, pc, hdt, hpc, hdisp⟩ := parse_device_cases h
  cases dt with
  | TOUCH =>
    simp only [parseDispatch, DeviceType.category, reduceCtorEq, if_false, if_true,
      liftE_eq_device] at hdisp
    simp only [reduceCtorEq, if_false] at hpc
    obtain ⟨ip, nm, rem, asd, hrem, hd⟩ := buildWaterHeater_ok hdisp
    subst hd
    simp only [SwitcherDevice.stateOf] at hoff
    rw [hoff] at hpc hrem
    simp only [reduceCtorEq, if_false, Except.ok.injEq] at hpc hrem
    simp [SwitcherDevice.powerOf, SwitcherDevice.currentOf, SwitcherDevice.remainingOf,
      hoff, ← hpc, ← hrem]
  | POWER_PLUG =>
    simp only [parseDispatch, DeviceType.category, reduceCtorEq, if_false, if_true,
      liftE_eq_device] at hdisp
    simp only [reduceCtorEq, if_false] at hpc
    obtain ⟨ip, nm, hd⟩ := buildPowerPlug_ok hdisp
    subst hd
    simp only [SwitcherDevice.stateOf] at hoff
    rw [hoff] at hpc
    simp only [reduceCtorEq, if_false, Except.ok.injEq] at hpc
    simp [SwitcherDevice.powerOf, SwitcherDevice.currentOf, SwitcherDevice.remainingOf,
      hoff, ← hpc]
  | BREEZE =>
    simp only [parseDispatch, DeviceType.category, reduceCtorEq, if_false, if_true,
      liftE_eq_device] at hdisp
    obtain ⟨ip, nm, temp, target, fan, rid, hd⟩ := buildThermostat_ok hdisp
    subst hd
    simp [SwitcherDevice.powerOf, SwitcherDevice.currentOf, SwitcherDevice.remainingOf]
  | RUNNER =>
    simp only [parseDispatch, DeviceType.category, reduceCtorEq, if_false, if_true,
      liftE_eq_device] at hdisp
    obtain ⟨ip, nm, pos, dir, hd⟩ := buildShutter_ok hdisp
    subst hd
    simp [SwitcherDevice.stateOf] at hoff
  | RUNNER_MINI =>
    simp only [parseDispatch, DeviceType.category, reduceCtorEq, if_false, if_true,
      liftE_eq_device] at hdisp
    obtain ⟨ip, nm, pos, dir, hd⟩ := buildShutter_ok hdisp
    subst hd
    simp [SwitcherDevice.stateOf] at hoff

/-- C6 witness: the OFF variant of the S1 datagram (state byte 00, power bytes
a0 05, remaining bytes 0e 10 00 00) parses to a water heater with power 0,
current 0 and remaining "00:00:00". -/
theorem C6_off_zero_witness :
    parse_device_from_datagram whOffDatagram = ParseOutcome.device whOffRecord ∧
      whOffRecord.stateOf = DeviceState.OFF ∧
      (whOffRecord.powerOf.getD 0 = 0 ∧ whOffRecord.currentOf.getD 0 = 0 ∧
        whOffRecord.remainingOf.getD "00:00:00" = "00:00:00") :=
  ⟨by decide, by decide, C6_off_zero whOffDatagram whOffRecord (by decide) (by decide)⟩

/-- C7: the parsed thermostat mode is the one the byte at offset 138 maps to
(01 auto, 02 dry, 03 fan, 04 cool, 05 heat) and defaults to COOL on every
unrecognised byte (and on a missing byte, when `getD` yields the default 0). -/
theorem C7_breeze_mode_default (msg : Bytes) :
    get_thermostat_mode msg =
      (if msg.getD 138 0 = 1 then ThermostatMode.AUTO
        else if msg.getD 138 0 = 2 then ThermostatMode.DRY
        else if msg.getD 138 0 = 3 then ThermostatMode.FAN
        else if msg.getD 138 0 = 4 then ThermostatMode.COOL
        else if msg.getD 138 0 = 5 then ThermostatMode.HEAT
        else ThermostatMode.COOL) := by
  unfold get_thermostat_mode
  rw [dropTakeOne, List.getD_eq_getElem?_getD]
  generalize msg[138]? = o
  cases o with
  | none => decide
  | some c =>
    simpa using mode_hex_byte c

/-- C8: an empty login read fails any operation with "login request was not
successful" after exactly one write; a non-empty login read followed by an empty
operation read fails with "<operation> request was not successful" after exactly
two writes. -/
theorem C8_empty_read_errors :
    (∀ (op : String) (rest : List Bytes),
        run_operation op ([] :: rest) =
          TcpOutcome.mk 1 (Except.error "login request was not successful")) ∧
      ∀ (op : String) (r : Bytes) (rest : List Bytes), r ≠ [] →
        run_operation op (r :: [] :: rest) =
          TcpOutcome.mk 2 (Except.error (op ++ " request was not successful")) := by
  constructor
  · intro op rest
    simp [run_operation]
  · intro op r rest hr
    cases r with
    | nil => exact absurd rfl hr
    | cons x xs => simp [run_operation]

/-- C8 witness: the get-state operation with a good login read and an empty second
read fails with "get state request was not successful" after two writes. -/
theorem C8_empty_read_errors_witness :
    ([1] : Bytes) ≠ [] ∧
      run_operation "get state" [[1], []] =
        TcpOutcome.mk 2 (Except.error "get state request was not successful") :=
  ⟨by decide, C8_empty_read_errors.2 "get state" [1] [] (by decide)⟩

/-- C9: every shutter record produced by the parser has device state ON, whatever
the datagram carries. -/
theorem C9_shutter_always_on (b : Bytes) (d : SwitcherDevice)
    (h : parse_device_from_datagram b = ParseOutcome.device d)
    (hsh : d.isShutterRec = true) : d.stateOf = DeviceState.ON := by
  obtain ⟨hg, dt, pc, hdt, hpc, hdisp⟩ := parse_device_cases h
  cases dt with
  | TOUCH =>
    simp only [parseDispatch, DeviceType.category, reduceCtorEq, if_false, if_true,
      liftE_eq_device] at hdisp
    obtain ⟨ip, nm, rem, asd, hrem, hd⟩ := buildWaterHeater_ok hdisp
    subst hd
    simp [SwitcherDevice.isShutterRec] at hsh
  | POWER_PLUG =>
    simp only [parseDispatch, DeviceType.category, reduceCtorEq, if_false, if_true,
      liftE_eq_device] at hdisp
    obtain ⟨ip, nm, hd⟩ := buildPowerPlug_ok hdisp
    subst hd
    simp [SwitcherDevice.isShutterRec] at hsh
  | BREEZE =>
    simp only [parseDispatch, DeviceType.category, reduceCtorEq, if_false, if_true,
      liftE_eq_device] at hdisp
    obtain ⟨ip, nm, temp, target, fan, rid, hd⟩ := buildThermostat_ok hdisp
    subst hd
    simp [SwitcherDevice.isShutterRec] at hsh
  | RUNNER =>
    simp only [parseDispatch, DeviceType.category, reduceCtorEq, if_false, if_true,
      liftE_eq_device] at hdisp
    obtain ⟨ip, nm, pos, dir, hd⟩ := buildShutter_ok hdisp
    subst hd
    simp [SwitcherDevice.stateOf]
  | RUNNER_MINI =>
    simp only [parseDispatch, DeviceType.category, reduceCtorEq, if_false, if_true,
      liftE_eq_device] at hdisp
    obtain ⟨ip, nm, pos, dir, hd⟩ := buildShutter_ok hdisp
    subst hd
    simp [SwitcherDevice.stateOf]

/-- C9 witness: a concrete 159-byte Runner datagram (state-independent payload)
parses to a shutter record whose state is ON. -/
theorem C9_shutter_always_on_witness :
    parse_device_from_datagram runnerDatagram = ParseOutcome.device runnerRecord ∧
      runnerRecord.isShutterRec = true ∧ runnerRecord.stateOf = DeviceState.ON :=
  ⟨by decide, by decide,
    C9_shutter_always_on runnerDatagram runnerRecord (by decide) (by decide)⟩

/-- C10: both state decoders map exactly the byte 0x01 to ON; any other byte —
not only 0x00 — decodes as OFF (the type-1 decoder reads offset 133, the Breeze
decoder offset 137). -/
theorem C10_state_byte_iff :
    (∀ msg : Bytes, (get_device_state msg = DeviceState.ON ↔ msg[133]? = some 1)) ∧
      ∀ msg : Bytes, (get_thermostat_state msg = DeviceState.ON ↔ msg[137]? = some 1) := by
  constructor
  · intro msg
    unfold get_device_state
    have h1 : hexSlice msg 266 268 = hexlify ((msg.drop 133).take 1) := by
      show ((hexlify msg).drop 266).take (268 - 266) = _
      rw [show (268 - 266 : Nat) = 2 from rfl, show (266 : Nat) = 2 * 133 from rfl,
        hexlify_drop, hexlify_take_two]
    rw [h1, dropTakeOne]
    cases ho : msg[133]? with
    | none => decide
    | some c => simpa using state_hex_byte c
  · intro msg
    unfold get_thermostat_state
    rw [dropTakeOne]
    cases ho : msg[137]? with
    | none => decide
    | some c => simpa using state_hex_byte c
